import Mathlib

/-!
Verification of the DrillLab rendering core (src/drill_system/renderer.py)
against its natural-language specification.

The Python data model (src/drill_system/schema.py) is embedded shallowly:
coordinates become rationals (ℚ), Pydantic models become structures, and the
`Action` discriminated union becomes an inductive type.  The mutable
`PositionTracker` of renderer.py becomes a record of (total) maps that is
threaded through the action list exactly as the `render` loop does.

Where the Python code computes `np.sqrt(dx**2 + dy**2)` only to compare the
result with another non-negative quantity or with zero, the embedding compares
the squares instead: `Real.sqrt` is strictly monotone on non-negative numbers,
so `sqrt a < sqrt b ↔ a < b` and `sqrt a = 0 ↔ a = 0` for `a b ≥ 0`.  This
keeps every definition computable and every concrete instance decidable.
-/

namespace DrillLab

attribute [local semireducible] Rat.add Rat.sub Rat.mul Rat.inv Rat.ofScientific

/-! ## Data model (schema.py) -/

/-- FieldType enum of schema.py. -/
inductive FieldKind where
  | half
  | full
deriving DecidableEq

/-- AttackingDirection enum of schema.py: NORTH attacks toward y = 100,
SOUTH toward y = 0. -/
inductive AttackingDirection where
  | north
  | south
deriving DecidableEq

/-- PlayerRole enum of schema.py. -/
inductive PlayerRole where
  | attacker
  | defender
  | goalkeeper
  | neutral
deriving DecidableEq

/-- GateOrientation enum of schema.py. -/
inductive GateOrientation where
  | horizontal
  | vertical
deriving DecidableEq

/-- FieldConfig of schema.py.  `goals` is 0, 1 or 2 in the schema; the
embedding keeps it as ℕ since the renderer only tests `> 0` and `> 1`. -/
structure FieldConfig where
  type : FieldKind
  attacking_direction : AttackingDirection
  markings : Bool
  goals : ℕ
deriving DecidableEq

/-- Player of schema.py (position is the starting position). -/
structure Player where
  id : String
  role : PlayerRole
  pos : ℚ × ℚ
deriving DecidableEq

/-- Cone of schema.py. -/
structure Cone where
  pos : ℚ × ℚ
deriving DecidableEq

/-- ConeGate of schema.py. -/
structure ConeGate where
  id : String
  center : ℚ × ℚ
  width : ℚ
  orientation : GateOrientation
deriving DecidableEq

/-- Ball of schema.py. -/
structure Ball where
  pos : ℚ × ℚ
deriving DecidableEq

/-- Mannequin of schema.py. -/
structure Mannequin where
  id : String
  pos : ℚ × ℚ
deriving DecidableEq

/-- The Action union of schema.py (PASS / RUN / DRIBBLE / SHOT).  A shot's
target is always the literal "GOAL" in the schema, so it carries no data. -/
inductive Action where
  | pass (from_player to_player : String)
  | run (player : String) (to_position : ℚ × ℚ)
  | dribble (player : String) (to_position : ℚ × ℚ) (through_gate : Option String)
  | shot (player : String)
deriving DecidableEq

/-- Drill of schema.py (name, description and coaching text are dropped:
the renderer never reads them). -/
structure Drill where
  field : FieldConfig
  players : List Player
  cones : List Cone
  cone_gates : List ConeGate
  balls : List Ball
  mannequins : List Mannequin
  actions : List Action
deriving DecidableEq

/-- The goal line the drill attacks, renderer.py lines 61 and 867:
`100 if attacking_direction == NORTH else 0`. -/
def goal_line_y (d : Drill) : ℚ :=
  if d.field.attacking_direction = AttackingDirection.north then 100 else 0

/-- Squared Euclidean distance.  renderer.py compares
`np.sqrt(dx**2 + dy**2)` values; comparing the squares is equivalent
(sqrt is strictly monotone on non-negatives). -/
def dist_sq (a b : ℚ × ℚ) : ℚ :=
  (a.1 - b.1) ^ 2 + (a.2 - b.2) ^ 2

/-! ## PositionTracker (renderer.py lines 657-740) -/

/-- The mutable state of `PositionTracker`.  The Python dicts
`player_positions` and `player_has_moved` become total maps:
`player_positions` returns `none` exactly where the dict has no key, and
`player_has_moved` is queried in the source only through
`.get(player_id, False)`, so a `String → Bool` map defaulting to `false`
is an exact model. -/
structure Tracker where
  player_positions : String → Option (ℚ × ℚ)
  player_has_moved : String → Bool
  ball_position : Option (ℚ × ℚ)
  ball_holder : Option String

/-- Dict insertion used to build and update `player_positions`. -/
def insert_pos (m : String → Option (ℚ × ℚ)) (pid : String) (q : ℚ × ℚ) :
    String → Option (ℚ × ℚ) :=
  fun x => if x = pid then some q else m x

/-- The `for player in drill.players` initialization loop
(renderer.py lines 677-679); a later duplicate id overwrites an earlier
one, exactly as repeated dict assignment does. -/
def init_positions (players : List Player) : String → Option (ℚ × ℚ) :=
  players.foldl (fun m p => insert_pos m p.id p.pos) (fun _ => none)

/-- Ball-holder choice from the first action (renderer.py lines 687-694):
PASS yields its from_player, DRIBBLE and SHOT yield their player, RUN
yields nothing. -/
def first_action_holder (d : Drill) : Option String :=
  match d.actions with
  | [] => none
  | a :: _ =>
    match a with
    | Action.pass f _ => some f
    | Action.run _ _ => none
    | Action.dribble p _ _ => some p
    | Action.shot p => some p

/-- One step of the nearest-player fallback loop (renderer.py lines
697-706).  `best` carries the running `(ball_holder, min_dist)` pair,
with `none` standing for the initial `min_dist = float('inf')`; distances
are compared via their squares (sqrt is strictly monotone). -/
def nearest_from (bp : ℚ × ℚ) : Option (String × ℚ) → List Player → Option (String × ℚ)
  | best, [] => best
  | best, p :: ps =>
    match best with
    | none => nearest_from bp (some (p.id, dist_sq p.pos bp)) ps
    | some (h, m) =>
      if dist_sq p.pos bp < m then nearest_from bp (some (p.id, dist_sq p.pos bp)) ps
      else nearest_from bp (some (h, m)) ps

/-- The whole fallback loop: id of the first player attaining the minimal
distance to the ball, or `none` when there are no players. -/
def nearest_player (players : List Player) (bp : ℚ × ℚ) : Option String :=
  (nearest_from bp none players).map Prod.fst

/-- Initial ball holder (renderer.py lines 687-706): first-action rule,
then the nearest-player fallback when a ball exists. -/
def init_holder (d : Drill) : Option String :=
  match first_action_holder d with
  | some h => some h
  | none =>
    match d.balls with
    | [] => none
    | b :: _ => nearest_player d.players b.pos

/-- Initial ball position (renderer.py lines 709-712). -/
def init_ball_position (d : Drill) (pos : String → Option (ℚ × ℚ))
    (holder : Option String) : Option (ℚ × ℚ) :=
  match holder with
  | some h =>
    match pos h with
    | some q => some q
    | none => match d.balls with
      | [] => none
      | b :: _ => some b.pos
  | none =>
    match d.balls with
    | [] => none
    | b :: _ => some b.pos

/-- `PositionTracker.__init__` (renderer.py lines 669-712). -/
def init_tracker (d : Drill) : Tracker :=
  let pos := init_positions d.players
  let holder := init_holder d
  { player_positions := pos
    player_has_moved := fun _ => false
    ball_position := init_ball_position d pos holder
    ball_holder := holder }

/-- `PositionTracker.get_player_position` (renderer.py lines 714-716):
`self.player_positions.get(player_id, (0, 0))` — silently defaults to the
origin when the id is absent. -/
def get_player_position (t : Tracker) (pid : String) : ℚ × ℚ :=
  (t.player_positions pid).getD (0, 0)

/-- `PositionTracker.is_at_starting_position` (renderer.py lines 718-720). -/
def is_at_starting_position (t : Tracker) (pid : String) : Bool :=
  ! t.player_has_moved pid

/-- `PositionTracker.update_player_position` (renderer.py lines 728-735). -/
def update_player_position (t : Tracker) (pid : String) (q : ℚ × ℚ) : Tracker :=
  { player_positions := insert_pos t.player_positions pid q
    player_has_moved := fun x => if x = pid then true else t.player_has_moved x
    ball_position := if t.ball_holder = some pid then some q else t.ball_position
    ball_holder := t.ball_holder }

/-- `PositionTracker.transfer_ball` (renderer.py lines 737-740).  In Python
`self.player_positions[to_player_id]` raises KeyError for an id outside the
map (a contract-violating input); the embedding records the lookup result
as an `Option` instead, which is only reachable on such inputs. -/
def transfer_ball (t : Tracker) (pid : String) : Tracker :=
  { t with ball_holder := some pid
           ball_position := t.player_positions pid }

/-! ## ActionRenderer geometry (renderer.py lines 430-650)

The draw methods receive raw endpoints `(x1, y1), (x2, y2)` and two flags,
shorten the segment at each end by `PLAYER_OFFSET` or `ACTION_GAP` along the
unit direction vector, and bail out (drawing nothing) when a zero-length
segment would make that division ill-defined.

The embedding records, for each action actually drawn, a `DrawCmd` holding
the raw endpoints and the two offset constants chosen.  The drawn start
point is `(x1, y1) + (start_offset / dist) • ((x2, y2) - (x1, y1))` with
`dist = sqrt((x2-x1)^2 + (y2-y1)^2)` (renderer.py lines 466-477); the
command determines it uniquely, and keeping the division out of the record
keeps everything inside ℚ.

The two `dist == 0` guards become square comparisons:
`sqrt s = 0 ↔ s = 0`, and the offset segment has length `|dist - c1 - c2|`,
which vanishes iff `dist² = (c1 + c2)²` (all quantities non-negative). -/

/-- Offset clearing a player marker, renderer.py line 439. -/
def PLAYER_OFFSET : ℚ := 5 / 2

/-- Gap between chained actions, renderer.py line 441. -/
def ACTION_GAP : ℚ := 4 / 5

/-- Offset constant selection (renderer.py lines 470-471). -/
def offset_for (at_marker : Bool) : ℚ :=
  if at_marker then PLAYER_OFFSET else ACTION_GAP

/-- Which of the four draw methods is called. -/
inductive ActionKind where
  | pass
  | run
  | dribble
  | shot
deriving DecidableEq

/-- One emitted arrow: raw endpoints plus the offset constants applied to
each end.  (`end_offset` is 0 for a shot: `draw_shot` offsets only the
start, renderer.py lines 613-618.) -/
structure DrawCmd where
  kind : ActionKind
  x1 : ℚ
  y1 : ℚ
  x2 : ℚ
  y2 : ℚ
  start_offset : ℚ
  end_offset : ℚ
deriving DecidableEq

/-- Common skeleton of `draw_pass` / `draw_run` / `draw_dribble` /
`draw_shot`: the `dist == 0` guard inside `_get_offset_points`
(renderer.py line 462) and the second guard on the offset segment
(lines 491, 528, 565, 625), then the arrow itself.  `draw_shot` is the
`c2 = 0` instance: its second guard compares `dist` with `c1` alone. -/
def mk_arrow (k : ActionKind) (x1 y1 x2 y2 c1 c2 : ℚ) : Option DrawCmd :=
  let raw_sq := (x2 - x1) ^ 2 + (y2 - y1) ^ 2
  if raw_sq = 0 then none
  else if raw_sq = (c1 + c2) ^ 2 then none
  else some ⟨k, x1, y1, x2, y2, c1, c2⟩

/-- The player an action starts from: `from_player` for a pass, `player`
otherwise (renderer.py lines 876, 888, 898, 908). -/
def actor_of : Action → String
  | Action.pass f _ => f
  | Action.run p _ => p
  | Action.dribble p _ _ => p
  | Action.shot p => p

/-- Which draw method an action uses. -/
def kind_of : Action → ActionKind
  | Action.pass _ _ => ActionKind.pass
  | Action.run _ _ => ActionKind.run
  | Action.dribble _ _ _ => ActionKind.dribble
  | Action.shot _ => ActionKind.shot

/-- Raw (pre-offset) endpoints handed to the draw method by the `render`
loop (renderer.py lines 875-912): tracked positions for players, the
literal `to_position` for runs and dribbles, and the goal center
`(50, goal_y)` for shots. -/
def raw_endpoints (t : Tracker) (gy : ℚ) : Action → (ℚ × ℚ) × (ℚ × ℚ)
  | Action.pass f tp => (get_player_position t f, get_player_position t tp)
  | Action.run p tp => (get_player_position t p, tp)
  | Action.dribble p tp _ => (get_player_position t p, tp)
  | Action.shot p => (get_player_position t p, (50, gy))

/-- End-offset constant chosen by the `render` loop: the receiver's flag
for a pass (line 881), the literal `end_is_player=False` for runs and
dribbles (lines 893, 903), and no end offset at all for shots. -/
def end_offset_const (t : Tracker) : Action → ℚ
  | Action.pass _ tp => offset_for (is_at_starting_position t tp)
  | Action.run _ _ => ACTION_GAP
  | Action.dribble _ _ _ => ACTION_GAP
  | Action.shot _ => 0

/-- The draw call the `render` loop makes for one action against the
current tracker state; `none` when the degenerate-geometry guards fire. -/
def emit (t : Tracker) (gy : ℚ) (a : Action) : Option DrawCmd :=
  let se := raw_endpoints t gy a
  mk_arrow (kind_of a) se.1.1 se.1.2 se.2.1 se.2.2
    (offset_for (is_at_starting_position t (actor_of a)))
    (end_offset_const t a)

/-- Tracker update the `render` loop performs after drawing one action
(renderer.py lines 885, 895, 905; the SHOT branch performs none). -/
def step_tracker (t : Tracker) : Action → Tracker
  | Action.pass _ tp => transfer_ball t tp
  | Action.run p tp => update_player_position t p tp
  | Action.dribble p tp _ => update_player_position t p tp
  | Action.shot _ => t

/-- The `for action in drill.actions` loop of `render` (lines 870-912):
one draw call per action, each against the pre-action tracker state, the
tracker advanced immediately afterwards. -/
def render_steps (t : Tracker) (gy : ℚ) : List Action → List (Option DrawCmd)
  | [] => []
  | a :: rest => emit t gy a :: render_steps (step_tracker t a) gy rest

/-- Arrow layer of `render` for a whole drill. -/
def render_drill (d : Drill) : List (Option DrawCmd) :=
  render_steps (init_tracker d) (goal_line_y d) d.actions

/-- Tracker state after the first `i` actions of the drill. -/
def tracker_after (d : Drill) (i : ℕ) : Tracker :=
  (d.actions.take i).foldl step_tracker (init_tracker d)

/-- Tracker state after the whole action list. -/
def final_tracker (d : Drill) : Tracker :=
  d.actions.foldl step_tracker (init_tracker d)

/-- Cone positions a gate expands to at render time
(renderer.py lines 821-829): a HORIZONTAL gate spreads along x, a
VERTICAL gate along y. -/
def gate_cones (g : ConeGate) : List (ℚ × ℚ) :=
  match g.orientation with
  | GateOrientation.horizontal =>
      [(g.center.1 - g.width / 2, g.center.2), (g.center.1 + g.width / 2, g.center.2)]
  | GateOrientation.vertical =>
      [(g.center.1, g.center.2 - g.width / 2), (g.center.1, g.center.2 + g.width / 2)]

/-! ## FieldRenderer._calculate_bounds (renderer.py lines 66-173) -/

/-- The x coordinates collected by `_calculate_bounds` (lines 68-102):
entity positions, gate `center.x ± width/2` (for every orientation — the
source never looks at the gate's orientation here), and action endpoints
(RUN/DRIBBLE `to_position.x`; the goal-center x = 50 for SHOT). -/
def collect_xs (d : Drill) : List ℚ :=
  d.players.map (fun p => p.pos.1)
    ++ d.cones.map (fun c => c.pos.1)
    ++ d.cone_gates.flatMap (fun g => [g.center.1 - g.width / 2, g.center.1 + g.width / 2])
    ++ d.balls.map (fun b => b.pos.1)
    ++ d.mannequins.map (fun m => m.pos.1)
    ++ d.actions.filterMap (fun a =>
        match a with
        | Action.run _ tp => some tp.1
        | Action.dribble _ tp _ => some tp.1
        | Action.shot _ => some 50
        | Action.pass _ _ => none)

/-- The y coordinates collected by `_calculate_bounds`: entity positions,
the gate `center.y` (once per gate), and action endpoints (the attacking
goal line y for SHOT). -/
def collect_ys (d : Drill) (agy : ℚ) : List ℚ :=
  d.players.map (fun p => p.pos.2)
    ++ d.cones.map (fun c => c.pos.2)
    ++ d.cone_gates.map (fun g => g.center.2)
    ++ d.balls.map (fun b => b.pos.2)
    ++ d.mannequins.map (fun m => m.pos.2)
    ++ d.actions.filterMap (fun a =>
        match a with
        | Action.run _ tp => some tp.2
        | Action.dribble _ tp _ => some tp.2
        | Action.shot _ => some agy
        | Action.pass _ _ => none)

/-- Default substitution for an empty coordinate list (lines 105-108). -/
def content_xs (d : Drill) : List ℚ :=
  if collect_xs d = [] then [25, 75] else collect_xs d

/-- Default substitution for an empty y list (lines 105-108). -/
def content_ys (d : Drill) (agy : ℚ) : List ℚ :=
  if collect_ys d agy = [] then [25, 75] else collect_ys d agy

/-- Python `min` over a list (applied only to non-empty lists; the `[]`
case is unreachable in the pipeline below). -/
def qmin : List ℚ → ℚ
  | [] => 0
  | x :: xs => xs.foldl min x

/-- Python `max` over a list. -/
def qmax : List ℚ → ℚ
  | [] => 0
  | x :: xs => xs.foldl max x

/-- Padding plus clamping to the field (lines 117-120):
`(max 0 (cmin - padding), min 100 (cmax + padding))`. -/
def pad_clamp (cmin cmax p : ℚ) : ℚ × ℚ :=
  (max 0 (cmin - p), min 100 (cmax + p))

/-- Single-goal viewport expansion on the y axis (lines 123-135).  For a
NORTH drill with content above y = 70 the top is extended to the goal line
and the bottom pulled down to 78 if it was higher; symmetrically for
SOUTH. -/
def goal_adjust_y (d : Drill) (cymin cymax ymin ymax : ℚ) : ℚ × ℚ :=
  if 0 < d.field.goals then
    if d.field.attacking_direction = AttackingDirection.north then
      if 70 < cymax then (if 78 < ymin then 78 else ymin, 100) else (ymin, ymax)
    else
      if cymin < 30 then ((0 : ℚ), if ymax < 22 then 22 else ymax) else (ymin, ymax)
  else (ymin, ymax)

/-- Two-goal viewport expansion (lines 138-158): extension toward the
second goal, then full extension for goalkeepers sitting near either end
line. -/
def two_goal_adjust_y (d : Drill) (agy cymin cymax ymin ymax : ℚ) : ℚ × ℚ :=
  if 1 < d.field.goals then
    let other : ℚ := if agy = 100 then 0 else 100
    let pair : ℚ × ℚ :=
      if other = 0 ∧ cymin < 30 then (0, ymax)
      else if other = 100 ∧ 70 < cymax then (ymin, 100)
      else (ymin, ymax)
    let gk_top := d.players.any (fun p =>
      decide (p.role = PlayerRole.goalkeeper ∧ 90 < p.pos.2))
    let gk_bottom := d.players.any (fun p =>
      decide (p.role = PlayerRole.goalkeeper ∧ p.pos.2 < 10))
    (if gk_bottom then 0 else pair.1, if gk_top then 100 else pair.2)
  else (ymin, ymax)

/-- Minimum-size enforcement for one axis (lines 160-173): when the span
is below 30, recenter a 30-wide window and clamp it to [0, 100]. -/
def min_size_adjust (lo hi : ℚ) : ℚ × ℚ :=
  if hi - lo < 30 then
    (max 0 ((lo + hi) / 2 - 30 / 2), min 100 ((lo + hi) / 2 + 30 / 2))
  else (lo, hi)

/-- Computed bounds: the raw content box and the final viewport. -/
structure ViewBounds where
  content_x_min : ℚ
  content_x_max : ℚ
  content_y_min : ℚ
  content_y_max : ℚ
  x_min : ℚ
  x_max : ℚ
  y_min : ℚ
  y_max : ℚ
deriving DecidableEq

/-- The whole of `_calculate_bounds`, as a pure function of the drill, the
padding, and the `attacking_goal_y` attribute computed in `__init__`. -/
def calculate_bounds (d : Drill) (padding agy : ℚ) : ViewBounds :=
  let cxmin := qmin (content_xs d)
  let cxmax := qmax (content_xs d)
  let cymin := qmin (content_ys d agy)
  let cymax := qmax (content_ys d agy)
  let xp := pad_clamp cxmin cxmax padding
  let yp := pad_clamp cymin cymax padding
  let yg := goal_adjust_y d cymin cymax yp.1 yp.2
  let y2 := two_goal_adjust_y d agy cymin cymax yg.1 yg.2
  let xf := min_size_adjust xp.1 xp.2
  let yf := min_size_adjust y2.1 y2.2
  ⟨cxmin, cxmax, cymin, cymax, xf.1, xf.2, yf.1, yf.2⟩

/-- The viewport as computed inside `render`: `FieldRenderer(ax, drill)`
uses the default `padding = 8.0` and derives `attacking_goal_y` from the
attacking direction (renderer.py lines 56-64). -/
def compute_viewport (d : Drill) : ViewBounds :=
  calculate_bounds d 8 (goal_line_y d)

/-- FieldRenderer as a mutable object: `_calculate_bounds` reads
`self.drill`, `self.padding` and `self.attacking_goal_y` and overwrites
the bounds attributes on `self`. -/
structure FieldRendererState where
  drill : Drill
  padding : ℚ
  attacking_goal_y : ℚ
  bounds : ViewBounds

/-- One call of the `_calculate_bounds` method on a renderer object. -/
def calc_bounds_state (s : FieldRendererState) : FieldRendererState :=
  { s with bounds := calculate_bounds s.drill s.padding s.attacking_goal_y }

/-! ## Concrete drills used as witnesses and counterexamples -/

/-- Two players, a dribble by A1 then a pass A1 to A2 (the chaining
scenario from the spec). -/
def d_chain : Drill :=
  ⟨⟨FieldKind.half, AttackingDirection.north, true, 1⟩,
   [⟨"A1", PlayerRole.attacker, (30, 50)⟩, ⟨"A2", PlayerRole.attacker, (70, 50)⟩],
   [], [], [], [],
   [Action.dribble "A1" (35, 70) none, Action.pass "A1" "A2"]⟩

/-- The draw call the pass of `d_chain` produces: anchored at the dribble
endpoint (35, 70), start offset ACTION_GAP, end offset PLAYER_OFFSET
(A2 has not moved). -/
def cmd_chain : DrawCmd :=
  ⟨ActionKind.pass, 35, 70, 70, 50, 4 / 5, 5 / 2⟩

/-- A drill whose only action is a shot. -/
def d_shot_only : Drill :=
  ⟨⟨FieldKind.half, AttackingDirection.north, true, 1⟩,
   [⟨"A1", PlayerRole.attacker, (50, 50)⟩], [], [], [], [],
   [Action.shot "A1"]⟩

/-- One player; the tracker position map holds only the id "A1". -/
def d_single : Drill :=
  ⟨⟨FieldKind.half, AttackingDirection.north, true, 1⟩,
   [⟨"A1", PlayerRole.attacker, (30, 40)⟩], [], [], [], [], []⟩

/-- A single player on the left sideline; the recentered 30-wide window
overflows the field on the left and is clamped. -/
def d_edge : Drill :=
  ⟨⟨FieldKind.half, AttackingDirection.north, true, 0⟩,
   [⟨"A1", PlayerRole.attacker, (0, 50)⟩], [], [], [], [], []⟩

/-- A single player mid-field (used to exercise the amended minimum-size
bound away from the field boundary). -/
def d_mid : Drill :=
  ⟨⟨FieldKind.half, AttackingDirection.north, true, 0⟩,
   [⟨"A1", PlayerRole.attacker, (50, 50)⟩], [], [], [], [], []⟩

/-- A vertical cone gate centered at (50, 80) of width 30: `render` puts
its cones at (50, 65) and (50, 95), but `_calculate_bounds` collects
(35, 80) and (65, 80) instead. -/
def d_vgate : Drill :=
  ⟨⟨FieldKind.half, AttackingDirection.north, true, 0⟩,
   [⟨"A1", PlayerRole.attacker, (50, 50)⟩], [],
   [⟨"G1", (50, 80), 30, GateOrientation.vertical⟩], [], [], []⟩

/-- A run whose destination equals the runner's current position. -/
def d_zero_run : Drill :=
  ⟨⟨FieldKind.half, AttackingDirection.north, true, 1⟩,
   [⟨"A1", PlayerRole.attacker, (30, 50)⟩], [], [], [], [],
   [Action.run "A1" (30, 50)]⟩

/-- First action is a pass. -/
def d_first_pass : Drill :=
  ⟨⟨FieldKind.half, AttackingDirection.north, true, 1⟩,
   [⟨"A1", PlayerRole.attacker, (30, 50)⟩, ⟨"A2", PlayerRole.attacker, (70, 50)⟩],
   [], [], [], [],
   [Action.pass "A1" "A2"]⟩

/-- First action is a dribble. -/
def d_first_dribble : Drill :=
  ⟨⟨FieldKind.half, AttackingDirection.north, true, 1⟩,
   [⟨"A1", PlayerRole.attacker, (30, 50)⟩, ⟨"B2", PlayerRole.attacker, (70, 50)⟩],
   [], [], [], [],
   [Action.dribble "B2" (60, 70) none]⟩

/-- No actions, one ball nearest to B2. -/
def d_no_actions : Drill :=
  ⟨⟨FieldKind.half, AttackingDirection.north, true, 1⟩,
   [⟨"A1", PlayerRole.attacker, (10, 10)⟩, ⟨"B2", PlayerRole.attacker, (60, 60)⟩],
   [], [], [⟨(61, 61)⟩], [], []⟩

/-- First action is a run, one ball nearest to B2. -/
def d_run_ball : Drill :=
  ⟨⟨FieldKind.half, AttackingDirection.north, true, 1⟩,
   [⟨"A1", PlayerRole.attacker, (10, 10)⟩, ⟨"B2", PlayerRole.attacker, (60, 60)⟩],
   [], [], [⟨(61, 61)⟩], [],
   [Action.run "A1" (20, 20)]⟩

/-- First action is a run, no balls at all. -/
def d_run_no_ball : Drill :=
  ⟨⟨FieldKind.half, AttackingDirection.north, true, 1⟩,
   [⟨"A1", PlayerRole.attacker, (10, 10)⟩, ⟨"B2", PlayerRole.attacker, (60, 60)⟩],
   [], [], [], [],
   [Action.run "A1" (20, 20)]⟩

/-- A renderer object carrying stale bounds attributes. -/
def s_stale_a : FieldRendererState :=
  ⟨d_mid, 8, 100, ⟨0, 0, 0, 0, 0, 0, 0, 0⟩⟩

/-- The same drill and parameters behind different stale bounds. -/
def s_stale_b : FieldRendererState :=
  ⟨d_mid, 8, 100, ⟨1, 2, 3, 4, 5, 6, 7, 9⟩⟩

/-! ## Render-loop indexing lemmas -/

/-- The arrow layer has exactly one entry per action. -/
theorem render_steps_length (gy : ℚ) :
    ∀ (acts : List Action) (t : Tracker),
      (render_steps t gy acts).length = acts.length
  | [], _ => rfl
  | a :: rest, t => by
      simp [render_steps, render_steps_length gy rest (step_tracker t a)]

/-- The i-th arrow is the draw call for the i-th action, made against the
tracker advanced through the first i actions. -/
theorem render_steps_getElem (gy : ℚ) :
    ∀ (acts : List Action) (t : Tracker) (i : ℕ),
      (render_steps t gy acts)[i]? =
        (acts[i]?).map (fun a => emit ((acts.take i).foldl step_tracker t) gy a)
  | [], _, i => by simp [render_steps]
  | _ :: _, _, 0 => by simp [render_steps]
  | a :: rest, t, i + 1 => by
      simp [render_steps, render_steps_getElem gy rest (step_tracker t a) i,
        List.take_succ_cons]

/-- Peeling one action off the tracker evolution. -/
theorem tracker_after_succ (d : Drill) (i : ℕ) (a : Action)
    (h : d.actions[i]? = some a) :
    tracker_after d (i + 1) = step_tracker (tracker_after d i) a := by
  unfold tracker_after
  rw [List.take_succ, h]
  simp [List.foldl_append]

/-- RUN and DRIBBLE both advance the tracker through
`update_player_position` with their destination. -/
theorem step_tracker_moves (t : Tracker) (X : String) (P : ℚ × ℚ) (a : Action)
    (h : a = Action.run X P ∨ ∃ g, a = Action.dribble X P g) :
    step_tracker t a = update_player_position t X P := by
  rcases h with rfl | ⟨g, rfl⟩ <;> rfl

/-- After `update_player_position` the tracked position is the new one. -/
theorem get_player_position_update (t : Tracker) (pid : String) (q : ℚ × ℚ) :
    get_player_position (update_player_position t pid q) pid = q := by
  simp [get_player_position, update_player_position, insert_pos]

/-- After `update_player_position` the player is no longer at their
starting position. -/
theorem has_moved_update (t : Tracker) (pid : String) (q : ℚ × ℚ) :
    is_at_starting_position (update_player_position t pid q) pid = false := by
  simp [is_at_starting_position, update_player_position]

/-- Every draw call starts from the tracked position of the action's
starting player. -/
theorem raw_endpoints_fst (t : Tracker) (gy : ℚ) (a : Action) :
    (raw_endpoints t gy a).1 = get_player_position t (actor_of a) := by
  cases a <;> rfl

/-- Anatomy of a draw call that actually drew something: its recorded raw
start point and start-offset constant. -/
theorem emit_eq_some (t : Tracker) (gy : ℚ) (a : Action) (cmd : DrawCmd)
    (h : emit t gy a = some cmd) :
    cmd.x1 = (raw_endpoints t gy a).1.1 ∧ cmd.y1 = (raw_endpoints t gy a).1.2 ∧
      cmd.start_offset = offset_for (is_at_starting_position t (actor_of a)) := by
  simp only [emit, mk_arrow] at h
  split_ifs at h
  all_goals first
    | exact Option.noConfusion h
    | (cases h; exact ⟨rfl, rfl, rfl⟩)

/-- A draw call whose raw start and raw end coincide draws nothing: the
`dist == 0` guard fires. -/
theorem emit_degenerate (t : Tracker) (gy : ℚ) (a : Action)
    (h : (raw_endpoints t gy a).1 = (raw_endpoints t gy a).2) :
    emit t gy a = none := by
  have hx := (Prod.ext_iff.mp h).1
  have hy := (Prod.ext_iff.mp h).2
  simp only [emit, mk_arrow]
  rw [← hx, ← hy]
  norm_num

/-! ## C1: action chaining uses the small gap -/

/-- C1: when an action A1 = Run/Dribble by X ending at P is immediately
followed by an action A2 starting from X, the arrow drawn for A2 is
anchored at P with the small chain-gap constant ACTION_GAP = 4/5 (0.8) as
its start offset — never the player-offset constant 5/2 (2.5).  The drawn
start point is P offset along the A2 segment direction by that constant
(renderer.py lines 470-475). -/
theorem chain_uses_action_gap (d : Drill) (i : ℕ) (X : String) (P : ℚ × ℚ)
    (a1 a2 : Action)
    (h1 : d.actions[i]? = some a1)
    (h2 : d.actions[i + 1]? = some a2)
    (hmove : a1 = Action.run X P ∨ ∃ g, a1 = Action.dribble X P g)
    (hactor : actor_of a2 = X) :
    ∀ cmd : DrawCmd, (render_drill d)[i + 1]? = some (some cmd) →
      cmd.x1 = P.1 ∧ cmd.y1 = P.2 ∧
        cmd.start_offset = ACTION_GAP ∧ cmd.start_offset ≠ PLAYER_OFFSET := by
  intro cmd hcmd
  rw [render_drill,
    render_steps_getElem (goal_line_y d) d.actions (init_tracker d) (i + 1), h2] at hcmd
  have hemit : emit (tracker_after d (i + 1)) (goal_line_y d) a2 = some cmd :=
    Option.some.inj hcmd
  have ht : tracker_after d (i + 1) = update_player_position (tracker_after d i) X P := by
    rw [tracker_after_succ d i a1 h1, step_tracker_moves _ X P a1 hmove]
  obtain ⟨hx, hy, hoff⟩ := emit_eq_some _ _ _ _ hemit
  rw [raw_endpoints_fst, hactor, ht, get_player_position_update] at hx hy
  rw [hactor, ht, has_moved_update] at hoff
  refine ⟨hx, hy, hoff, ?_⟩
  rw [hoff]
  decide

/-- C1 witness: in `d_chain` the pass following the dribble is drawn from
the dribble endpoint (35, 70) with the 0.8 chain gap. -/
theorem chain_uses_action_gap_witness :
    cmd_chain.x1 = 35 ∧ cmd_chain.y1 = 70 ∧
      cmd_chain.start_offset = ACTION_GAP ∧ cmd_chain.start_offset ≠ PLAYER_OFFSET := by
  have h := chain_uses_action_gap d_chain 0 "A1" (35, 70)
    (Action.dribble "A1" (35, 70) none) (Action.pass "A1" "A2")
    (by decide) (by decide) (Or.inr ⟨none, rfl⟩) rfl
  exact h cmd_chain (by decide)

/-! ## C7: zero-length actions draw nothing and break nothing -/

/-- C7: an action whose raw start equals its raw end produces no arrow at
all (no line, no arrowhead — the draw method returns before drawing,
renderer.py lines 462-463 and 491-492), no exception occurs (the guard
fires before the division by `dist`), and the render still emits its full
one-entry-per-action layer, so the rest of the render proceeds
untouched. -/
theorem zero_length_renders_nothing (d : Drill) (i : ℕ) (a : Action)
    (h1 : d.actions[i]? = some a)
    (h0 : (raw_endpoints (tracker_after d i) (goal_line_y d) a).1 =
          (raw_endpoints (tracker_after d i) (goal_line_y d) a).2) :
    (render_drill d)[i]? = some none ∧
      (render_drill d).length = d.actions.length := by
  constructor
  · rw [render_drill,
      render_steps_getElem (goal_line_y d) d.actions (init_tracker d) i, h1]
    have : emit (tracker_after d i) (goal_line_y d) a = none :=
      emit_degenerate _ _ _ h0
    simpa using this
  · rw [render_drill]
    exact render_steps_length _ _ _

/-- C7 witness: a run to the runner's own position draws nothing, and the
arrow layer still has one entry per action. -/
theorem zero_length_renders_nothing_witness :
    (render_drill d_zero_run)[0]? = some none ∧
      (render_drill d_zero_run).length = d_zero_run.actions.length :=
  zero_length_renders_nothing d_zero_run 0 (Action.run "A1" (30, 50))
    (by decide) (by decide)

/-! ## C2: the SHOT branch of the render loop and the ball holder -/

/-- C2 counterexample: the claim says the ball holder is cleared after a
Shot is applied; in `d_shot_only` the holder is still A1 (the shooter)
after the whole action list — the SHOT branch of `render` never touches
the tracker, so no player is ever un-recorded as holder. -/
theorem shot_leaves_holder_set :
    (final_tracker d_shot_only).ball_holder = some "A1" ∧
      (final_tracker d_shot_only).ball_holder ≠ none := by
  constructor
  · rfl
  · decide

/-- C2 amended: applying a Shot changes nothing in the tracker at all; in
particular the ball holder is not cleared but stays whatever it was
before the shot (renderer.py lines 907-912 draw only). -/
theorem shot_step_preserves_tracker (t : Tracker) (p : String) :
    step_tracker t (Action.shot p) = t := rfl

/-! ## C3: querying a missing player id -/

/-- C3 (code bug per the spec): for an id absent from the position map,
`get_player_position` silently returns the default (0, 0) instead of
raising a descriptive error — the `.get(player_id, (0, 0))` of
renderer.py line 716. -/
theorem missing_player_defaults_to_origin :
    (init_tracker d_single).player_positions "B9" = none ∧
      get_player_position (init_tracker d_single) "B9" = (0, 0) := by
  exact ⟨rfl, rfl⟩

/-! ## C6: viewport containment of gate edges -/

/-- C6 (code bug): `_calculate_bounds` collects `center.x ± width/2` for
every gate regardless of orientation, so the cones a VERTICAL gate
actually renders at `center.y ± width/2` can fall outside the computed
viewport.  In `d_vgate` the rendered gate cone (50, 95) lies above the
viewport top y_max = 88: real content is clipped. -/
theorem vertical_gate_cone_clipped :
    (∃ g ∈ d_vgate.cone_gates, (50, 95) ∈ gate_cones g) ∧
      (compute_viewport d_vgate).y_max = 88 ∧
      ¬ ((95 : ℚ) ≤ (compute_viewport d_vgate).y_max) := by
  refine ⟨?_, ?_, ?_⟩ <;> decide

/-! ## C8: frame effect of transfer_ball -/

/-- C8: `transfer_ball` sets the holder to the receiving player and leaves
every live position and every has-moved flag exactly as they were (it
additionally refreshes the derived ball position, which per the spec is
always the holder's live position). -/
theorem transfer_ball_frame (t : Tracker) (tp : String) :
    (transfer_ball t tp).ball_holder = some tp ∧
      (transfer_ball t tp).player_positions = t.player_positions ∧
      (transfer_ball t tp).player_has_moved = t.player_has_moved :=
  ⟨rfl, rfl, rfl⟩

/-! ## Bounds-pipeline lemmas -/

/-- A min-fold never exceeds its seed. -/
theorem foldl_min_le : ∀ (l : List ℚ) (a : ℚ), l.foldl min a ≤ a
  | [], a => le_refl a
  | x :: xs, a => le_trans (foldl_min_le xs (min a x)) (min_le_left a x)

/-- A common lower bound of the seed and all elements bounds a min-fold. -/
theorem le_foldl_min : ∀ (l : List ℚ) (a c : ℚ),
    c ≤ a → (∀ v ∈ l, c ≤ v) → c ≤ l.foldl min a
  | [], _, _, ha, _ => ha
  | x :: xs, a, c, ha, h =>
      le_foldl_min xs (min a x) c (le_min ha (h x (List.mem_cons_self x xs)))
        (fun v hv => h v (List.mem_cons_of_mem x hv))

/-- A max-fold is at least its seed. -/
theorem le_foldl_max : ∀ (l : List ℚ) (a : ℚ), a ≤ l.foldl max a
  | [], a => le_refl a
  | x :: xs, a => le_trans (le_max_left a x) (le_foldl_max xs (max a x))

/-- A common upper bound of the seed and all elements bounds a max-fold. -/
theorem foldl_max_le : ∀ (l : List ℚ) (a c : ℚ),
    a ≤ c → (∀ v ∈ l, v ≤ c) → l.foldl max a ≤ c
  | [], _, _, ha, _ => ha
  | x :: xs, a, c, ha, h =>
      foldl_max_le xs (max a x) c (max_le ha (h x (List.mem_cons_self x xs)))
        (fun v hv => h v (List.mem_cons_of_mem x hv))

/-- For a non-empty list of in-field coordinates the content box is
well-ordered and inside [0, 100]. -/
theorem qminmax_range (l : List ℚ) (hne : l ≠ [])
    (h : ∀ v ∈ l, 0 ≤ v ∧ v ≤ 100) :
    0 ≤ qmin l ∧ qmin l ≤ qmax l ∧ qmax l ≤ 100 := by
  cases l with
  | nil => exact absurd rfl hne
  | cons x xs =>
    have hx := h x (List.mem_cons_self x xs)
    have hxs : ∀ v ∈ xs, 0 ≤ v ∧ v ≤ 100 :=
      fun v hv => h v (List.mem_cons_of_mem x hv)
    refine ⟨?_, ?_, ?_⟩
    · exact le_foldl_min xs x 0 hx.1 (fun v hv => (hxs v hv).1)
    · exact le_trans (foldl_min_le xs x) (le_foldl_max xs x)
    · exact foldl_max_le xs x 100 hx.2 (fun v hv => (hxs v hv).2)

/-- The defaulted coordinate list is never empty. -/
theorem content_xs_ne_nil (d : Drill) : content_xs d ≠ [] := by
  unfold content_xs
  split_ifs with h
  · simp
  · exact h

/-- The defaulted y list is never empty. -/
theorem content_ys_ne_nil (d : Drill) (agy : ℚ) : content_ys d agy ≠ [] := by
  unfold content_ys
  split_ifs with h
  · simp
  · exact h

/-- Defaulting preserves the in-field property (25 and 75 are in-field). -/
theorem content_xs_range (d : Drill) (h : ∀ v ∈ collect_xs d, 0 ≤ v ∧ v ≤ 100) :
    ∀ v ∈ content_xs d, 0 ≤ v ∧ v ≤ 100 := by
  unfold content_xs
  split_ifs with he
  · intro v hv
    rcases List.mem_cons.mp hv with rfl | hv
    · norm_num
    · rw [List.mem_singleton] at hv
      subst hv
      norm_num
  · exact h

/-- Defaulting preserves the in-field property on the y axis. -/
theorem content_ys_range (d : Drill) (agy : ℚ)
    (h : ∀ v ∈ collect_ys d agy, 0 ≤ v ∧ v ≤ 100) :
    ∀ v ∈ content_ys d agy, 0 ≤ v ∧ v ≤ 100 := by
  unfold content_ys
  split_ifs with he
  · intro v hv
    rcases List.mem_cons.mp hv with rfl | hv
    · norm_num
    · rw [List.mem_singleton] at hv
      subst hv
      norm_num
  · exact h

/-- Padding then clamping keeps the interval well-ordered inside [0, 100]. -/
theorem pad_clamp_range (cmin cmax p : ℚ) (h0 : 0 ≤ cmin) (h1 : cmin ≤ cmax)
    (h2 : cmax ≤ 100) (hp : 0 ≤ p) :
    0 ≤ (pad_clamp cmin cmax p).1 ∧
      (pad_clamp cmin cmax p).1 ≤ (pad_clamp cmin cmax p).2 ∧
      (pad_clamp cmin cmax p).2 ≤ 100 := by
  unfold pad_clamp
  refine ⟨le_max_left _ _, ?_, min_le_left _ _⟩
  apply max_le
  · exact le_min (by norm_num) (by linarith)
  · exact le_min (by linarith) (by linarith)

/-- The single-goal adjustment keeps the interval well-ordered inside
[0, 100] (its writes are the constants 0, 22, 78, 100). -/
theorem goal_adjust_y_range (d : Drill) (cymin cymax ymin ymax : ℚ)
    (h0 : 0 ≤ ymin) (h1 : ymin ≤ ymax) (h2 : ymax ≤ 100) :
    0 ≤ (goal_adjust_y d cymin cymax ymin ymax).1 ∧
      (goal_adjust_y d cymin cymax ymin ymax).1 ≤
        (goal_adjust_y d cymin cymax ymin ymax).2 ∧
      (goal_adjust_y d cymin cymax ymin ymax).2 ≤ 100 := by
  unfold goal_adjust_y
  split_ifs <;> refine ⟨?_, ?_, ?_⟩ <;> dsimp only <;> linarith

/-- The two-goal adjustment keeps the interval well-ordered inside
[0, 100] (its writes are the constants 0 and 100). -/
theorem two_goal_adjust_y_range (d : Drill) (agy cymin cymax ymin ymax : ℚ)
    (h0 : 0 ≤ ymin) (h1 : ymin ≤ ymax) (h2 : ymax ≤ 100) :
    0 ≤ (two_goal_adjust_y d agy cymin cymax ymin ymax).1 ∧
      (two_goal_adjust_y d agy cymin cymax ymin ymax).1 ≤
        (two_goal_adjust_y d agy cymin cymax ymin ymax).2 ∧
      (two_goal_adjust_y d agy cymin cymax ymin ymax).2 ≤ 100 := by
  simp only [two_goal_adjust_y]
  split_ifs <;> refine ⟨?_, ?_, ?_⟩ <;> dsimp only <;> linarith

/-- Minimum-size enforcement on a well-ordered interval inside [0, 100]
yields a span of at least 15: the recentered 30-wide window loses at most
half its width to the boundary clamp. -/
theorem min_size_extent (lo hi : ℚ) (h0 : 0 ≤ lo) (h1 : lo ≤ hi)
    (h2 : hi ≤ 100) :
    15 ≤ (min_size_adjust lo hi).2 - (min_size_adjust lo hi).1 := by
  unfold min_size_adjust
  split_ifs with hlt
  · dsimp only
    rcases le_total ((lo + hi) / 2 - 30 / 2) 0 with h3 | h3
    · rw [max_eq_left h3]
      have h5 : (15 : ℚ) ≤ min 100 ((lo + hi) / 2 + 30 / 2) :=
        le_min (by norm_num) (by linarith)
      linarith
    · rw [max_eq_right h3]
      rcases le_total ((lo + hi) / 2 + 30 / 2) 100 with h4 | h4
      · rw [min_eq_right h4]
        linarith
      · rw [min_eq_left h4]
        linarith
  · dsimp only
    linarith

/-! ## C4: minimum viewport size -/

/-- C4 counterexample: for the single player at (0, 50) the computed
viewport spans only 19 units on the x axis — the recentered 30-wide
window is clamped at the field boundary x = 0, so the claimed 30-unit
minimum does not hold for every document. -/
theorem edge_player_viewport_below_min :
    (compute_viewport d_edge).x_max - (compute_viewport d_edge).x_min = 19 ∧
      ¬ (30 ≤ (compute_viewport d_edge).x_max - (compute_viewport d_edge).x_min) := by
  constructor <;> decide

/-- C4 amended: the minimum-size pass guarantees a span of at least 30
only when the recentered window escapes the [0, 100] clamp; near a field
boundary the clamp can cut it down, but (for documents whose collected
coordinates all lie in [0, 100]) each axis of the viewport always spans
at least 15 units. -/
theorem viewport_extent_ge_fifteen (d : Drill)
    (hx : ∀ v ∈ collect_xs d, 0 ≤ v ∧ v ≤ 100)
    (hy : ∀ v ∈ collect_ys d (goal_line_y d), 0 ≤ v ∧ v ≤ 100) :
    15 ≤ (compute_viewport d).x_max - (compute_viewport d).x_min ∧
      15 ≤ (compute_viewport d).y_max - (compute_viewport d).y_min := by
  obtain ⟨hx0, hx1, hx2⟩ :=
    qminmax_range (content_xs d) (content_xs_ne_nil d) (content_xs_range d hx)
  obtain ⟨hy0, hy1, hy2⟩ :=
    qminmax_range (content_ys d (goal_line_y d)) (content_ys_ne_nil d (goal_line_y d))
      (content_ys_range d (goal_line_y d) hy)
  obtain ⟨hpx0, hpx1, hpx2⟩ :=
    pad_clamp_range (qmin (content_xs d)) (qmax (content_xs d)) 8 hx0 hx1 hx2
      (by norm_num)
  obtain ⟨hpy0, hpy1, hpy2⟩ :=
    pad_clamp_range (qmin (content_ys d (goal_line_y d)))
      (qmax (content_ys d (goal_line_y d))) 8 hy0 hy1 hy2 (by norm_num)
  obtain ⟨hg0, hg1, hg2⟩ :=
    goal_adjust_y_range d (qmin (content_ys d (goal_line_y d)))
      (qmax (content_ys d (goal_line_y d)))
      (pad_clamp (qmin (content_ys d (goal_line_y d)))
        (qmax (content_ys d (goal_line_y d))) 8).1
      (pad_clamp (qmin (content_ys d (goal_line_y d)))
        (qmax (content_ys d (goal_line_y d))) 8).2
      hpy0 hpy1 hpy2
  obtain ⟨h20, h21, h22⟩ :=
    two_goal_adjust_y_range d (goal_line_y d)
      (qmin (content_ys d (goal_line_y d))) (qmax (content_ys d (goal_line_y d)))
      (goal_adjust_y d (qmin (content_ys d (goal_line_y d)))
        (qmax (content_ys d (goal_line_y d)))
        (pad_clamp (qmin (content_ys d (goal_line_y d)))
          (qmax (content_ys d (goal_line_y d))) 8).1
        (pad_clamp (qmin (content_ys d (goal_line_y d)))
          (qmax (content_ys d (goal_line_y d))) 8).2).1
      (goal_adjust_y d (qmin (content_ys d (goal_line_y d)))
        (qmax (content_ys d (goal_line_y d)))
        (pad_clamp (qmin (content_ys d (goal_line_y d)))
          (qmax (content_ys d (goal_line_y d))) 8).1
        (pad_clamp (qmin (content_ys d (goal_line_y d)))
          (qmax (content_ys d (goal_line_y d))) 8).2).2
      hg0 hg1 hg2
  exact ⟨min_size_extent _ _ hpx0 hpx1 hpx2, min_size_extent _ _ h20 h21 h22⟩

/-- C4 witness: the mid-field single-player drill satisfies the in-field
hypotheses and its viewport spans at least 15 units per axis (in fact it
spans exactly 30). -/
theorem viewport_extent_ge_fifteen_witness :
    (∀ v ∈ collect_xs d_mid, 0 ≤ v ∧ v ≤ 100) ∧
    (∀ v ∈ collect_ys d_mid (goal_line_y d_mid), 0 ≤ v ∧ v ≤ 100) ∧
    (15 ≤ (compute_viewport d_mid).x_max - (compute_viewport d_mid).x_min ∧
      15 ≤ (compute_viewport d_mid).y_max - (compute_viewport d_mid).y_min) :=
  ⟨by decide, by decide, viewport_extent_ge_fifteen d_mid (by decide) (by decide)⟩

/-! ## Nearest-player fallback lemmas -/

/-- The fallback loop never loses its running best. -/
theorem nearest_from_isSome (bp : ℚ × ℚ) :
    ∀ (ps : List Player) (h : String) (m : ℚ),
      (nearest_from bp (some (h, m)) ps).isSome
  | [], _, _ => rfl
  | p :: ps, h, m => by
      simp only [nearest_from]
      split_ifs <;> exact nearest_from_isSome bp ps _ _

/-- The loop's result is no farther than the running best and no farther
than any remaining player. -/
theorem nearest_from_min (bp : ℚ × ℚ) :
    ∀ (ps : List Player) (h : String) (m : ℚ) (r : String × ℚ),
      nearest_from bp (some (h, m)) ps = some r →
        r.2 ≤ m ∧ ∀ q ∈ ps, r.2 ≤ dist_sq q.pos bp
  | [], h, m, r => by
      intro he
      cases he
      exact ⟨le_refl _, by simp⟩
  | p :: ps, h, m, r => by
      intro he
      simp only [nearest_from] at he
      split_ifs at he with hlt
      · obtain ⟨h1, h2⟩ := nearest_from_min bp ps p.id (dist_sq p.pos bp) r he
        refine ⟨le_of_lt (lt_of_le_of_lt h1 hlt), ?_⟩
        intro q hq
        rcases List.mem_cons.mp hq with rfl | hq
        · exact h1
        · exact h2 q hq
      · obtain ⟨h1, h2⟩ := nearest_from_min bp ps h m r he
        push_neg at hlt
        refine ⟨h1, ?_⟩
        intro q hq
        rcases List.mem_cons.mp hq with rfl | hq
        · exact le_trans h1 hlt
        · exact h2 q hq

/-- The loop's result is either the running best or one of the players,
paired with that player's distance. -/
theorem nearest_from_mem (bp : ℚ × ℚ) :
    ∀ (ps : List Player) (h : String) (m : ℚ) (r : String × ℚ),
      nearest_from bp (some (h, m)) ps = some r →
        r = (h, m) ∨ ∃ p ∈ ps, r = (p.id, dist_sq p.pos bp)
  | [], h, m, r => by
      intro he
      cases he
      exact Or.inl rfl
  | p :: ps, h, m, r => by
      intro he
      simp only [nearest_from] at he
      split_ifs at he with hlt
      · rcases nearest_from_mem bp ps p.id (dist_sq p.pos bp) r he with heq | ⟨q, hq, heq⟩
        · exact Or.inr ⟨p, List.mem_cons_self p ps, heq⟩
        · exact Or.inr ⟨q, List.mem_cons_of_mem p hq, heq⟩
      · rcases nearest_from_mem bp ps h m r he with heq | ⟨q, hq, heq⟩
        · exact Or.inl heq
        · exact Or.inr ⟨q, List.mem_cons_of_mem p hq, heq⟩

/-- The fallback picks a player whose (squared) distance to the ball is
minimal over all players. -/
theorem nearest_player_spec (players : List Player) (bp : ℚ × ℚ)
    (hne : players ≠ []) :
    ∃ p, p ∈ players ∧ nearest_player players bp = some p.id ∧
      ∀ q ∈ players, dist_sq p.pos bp ≤ dist_sq q.pos bp := by
  cases players with
  | nil => exact absurd rfl hne
  | cons p0 ps =>
    obtain ⟨r, hr⟩ := Option.isSome_iff_exists.mp
      (nearest_from_isSome bp ps p0.id (dist_sq p0.pos bp))
    have hmin := nearest_from_min bp ps p0.id (dist_sq p0.pos bp) r hr
    have hnp : nearest_player (p0 :: ps) bp = some r.1 := by
      simp only [nearest_player, nearest_from]
      rw [hr]
      rfl
    rcases nearest_from_mem bp ps p0.id (dist_sq p0.pos bp) r hr with heq | ⟨p, hp, heq⟩
    · refine ⟨p0, List.mem_cons_self p0 ps, by rw [hnp, heq], ?_⟩
      intro q hq
      rcases List.mem_cons.mp hq with rfl | hq
      · exact le_refl _
      · have := hmin.2 q hq
        rw [heq] at this
        exact this
    · refine ⟨p, List.mem_cons_of_mem p0 hp, by rw [hnp, heq], ?_⟩
      intro q hq
      rcases List.mem_cons.mp hq with rfl | hq
      · have := hmin.1
        rw [heq] at this
        exact this
      · have := hmin.2 q hq
        rw [heq] at this
        exact this

/-- When the first action yields no holder, the initialization falls back
to the nearest player to the first ball, or leaves the holder unset when
there is no ball (renderer.py lines 696-706). -/
theorem init_holder_fallback (d : Drill) (hf : first_action_holder d = none) :
    (d.balls = [] → (init_tracker d).ball_holder = none) ∧
    (∀ b bs, d.balls = b :: bs → d.players ≠ [] →
      ∃ p, p ∈ d.players ∧ (init_tracker d).ball_holder = some p.id ∧
        ∀ q ∈ d.players, dist_sq p.pos b.pos ≤ dist_sq q.pos b.pos) := by
  have hold : (init_tracker d).ball_holder = init_holder d := rfl
  constructor
  · intro hb
    rw [hold]
    unfold init_holder
    rw [hf, hb]
  · intro b bs hb hne
    obtain ⟨p, hp, hnp, hmin⟩ := nearest_player_spec d.players b.pos hne
    refine ⟨p, hp, ?_, hmin⟩
    rw [hold]
    unfold init_holder
    rw [hf, hb]
    exact hnp

/-! ## C5: the initial ball holder -/

/-- C5: before any action is applied, the ball holder is the from-player
of a leading Pass, the player of a leading Dribble or Shot, and for a
drill with no actions (but at least one ball and one player) a player at
minimal Euclidean distance from the first ball's static position
(distances compared via their squares; sqrt is strictly monotone). -/
theorem initial_holder_rules (d : Drill) :
    (∀ X Y, d.actions.head? = some (Action.pass X Y) →
        (init_tracker d).ball_holder = some X) ∧
    (∀ p tp g, d.actions.head? = some (Action.dribble p tp g) →
        (init_tracker d).ball_holder = some p) ∧
    (∀ p, d.actions.head? = some (Action.shot p) →
        (init_tracker d).ball_holder = some p) ∧
    (d.actions = [] → ∀ b bs, d.balls = b :: bs → d.players ≠ [] →
      ∃ p, p ∈ d.players ∧ (init_tracker d).ball_holder = some p.id ∧
        ∀ q ∈ d.players, dist_sq p.pos b.pos ≤ dist_sq q.pos b.pos) := by
  have hold : (init_tracker d).ball_holder = init_holder d := rfl
  refine ⟨?_, ?_, ?_, ?_⟩
  · intro X Y h
    cases hacts : d.actions with
    | nil => rw [hacts] at h; exact Option.noConfusion h
    | cons a rest =>
      rw [hacts] at h
      have ha := Option.some.inj h
      rw [hold]
      unfold init_holder first_action_holder
      rw [hacts, ha]
  · intro p tp g h
    cases hacts : d.actions with
    | nil => rw [hacts] at h; exact Option.noConfusion h
    | cons a rest =>
      rw [hacts] at h
      have ha := Option.some.inj h
      rw [hold]
      unfold init_holder first_action_holder
      rw [hacts, ha]
  · intro p h
    cases hacts : d.actions with
    | nil => rw [hacts] at h; exact Option.noConfusion h
    | cons a rest =>
      rw [hacts] at h
      have ha := Option.some.inj h
      rw [hold]
      unfold init_holder first_action_holder
      rw [hacts, ha]
  · intro hnil
    have hf : first_action_holder d = none := by
      unfold first_action_holder
      rw [hnil]
    exact (init_holder_fallback d hf).2

/-- C5 witness: the three leading-action cases on concrete drills, and the
nearest-player fallback on a drill without actions. -/
theorem initial_holder_rules_witness :
    (init_tracker d_first_pass).ball_holder = some "A1" ∧
    (init_tracker d_first_dribble).ball_holder = some "B2" ∧
    (init_tracker d_shot_only).ball_holder = some "A1" ∧
    ∃ p, p ∈ d_no_actions.players ∧
      (init_tracker d_no_actions).ball_holder = some p.id ∧
      ∀ q ∈ d_no_actions.players,
        dist_sq p.pos (61, 61) ≤ dist_sq q.pos (61, 61) :=
  ⟨(initial_holder_rules d_first_pass).1 "A1" "A2" rfl,
   (initial_holder_rules d_first_dribble).2.1 "B2" (60, 70) none rfl,
   (initial_holder_rules d_shot_only).2.2.1 "A1" rfl,
   (initial_holder_rules d_no_actions).2.2.2 rfl ⟨(61, 61)⟩ [] rfl (by decide)⟩

/-! ## C10: a leading Run does not determine the holder -/

/-- C10: when the first action is a Run, the holder is not taken from it;
with at least one ball the holder falls back to the player nearest the
first ball's static position, and with no ball it stays unset. -/
theorem run_first_fallback_holder (d : Drill) (X : String) (tp : ℚ × ℚ)
    (h : d.actions.head? = some (Action.run X tp)) :
    (d.balls = [] → (init_tracker d).ball_holder = none) ∧
    (∀ b bs, d.balls = b :: bs → d.players ≠ [] →
      ∃ p, p ∈ d.players ∧ (init_tracker d).ball_holder = some p.id ∧
        ∀ q ∈ d.players, dist_sq p.pos b.pos ≤ dist_sq q.pos b.pos) := by
  have hf : first_action_holder d = none := by
    cases hacts : d.actions with
    | nil => rw [hacts] at h; exact Option.noConfusion h
    | cons a rest =>
      rw [hacts] at h
      have ha := Option.some.inj h
      unfold first_action_holder
      rw [hacts, ha]
  exact init_holder_fallback d hf

/-- C10 witness: with a leading Run, no ball leaves the holder unset and
one ball selects the nearest player. -/
theorem run_first_fallback_holder_witness :
    (init_tracker d_run_no_ball).ball_holder = none ∧
    ∃ p, p ∈ d_run_ball.players ∧
      (init_tracker d_run_ball).ball_holder = some p.id ∧
      ∀ q ∈ d_run_ball.players,
        dist_sq p.pos (61, 61) ≤ dist_sq q.pos (61, 61) :=
  ⟨(run_first_fallback_holder d_run_no_ball "A1" (20, 20) rfl).1 rfl,
   (run_first_fallback_holder d_run_ball "A1" (20, 20) rfl).2 ⟨(61, 61)⟩ [] rfl (by decide)⟩

/-! ## C9: purity of the bounds computation -/

/-- C9: `_calculate_bounds` is a pure function of the drill document (and
the fixed padding and goal-line inputs).  Running it a second time on the
same renderer object changes nothing, and two objects agreeing on the
inputs get identical bounds rectangles no matter what stale bounds
attributes they carried — there is no hidden state. -/
theorem calculate_bounds_pure (s1 s2 : FieldRendererState)
    (hd : s1.drill = s2.drill) (hp : s1.padding = s2.padding)
    (ha : s1.attacking_goal_y = s2.attacking_goal_y) :
    calc_bounds_state (calc_bounds_state s1) = calc_bounds_state s1 ∧
      (calc_bounds_state s1).bounds = (calc_bounds_state s2).bounds := by
  constructor
  · rfl
  · simp only [calc_bounds_state, hd, hp, ha]

/-- C9 witness: two renderer objects over the same drill but with
different stale bounds agree after recomputation, and recomputing twice
is the same as once. -/
theorem calculate_bounds_pure_witness :
    calc_bounds_state (calc_bounds_state s_stale_a) = calc_bounds_state s_stale_a ∧
      (calc_bounds_state s_stale_a).bounds = (calc_bounds_state s_stale_b).bounds :=
  calculate_bounds_pure s_stale_a s_stale_b rfl rfl rfl

end DrillLab
